import Mathlib

/-!
Shallow embedding of the RedRTC WebRTC signaling server core
(src/src/client.c, src/src/room.c, src/src/utilities.c and the server
dispatch / protocol-handler translation unit).

Modelling conventions:
* C pointers into the two registries (`client_t *`, `room_t *`) are
  modelled as `Nat` indices into the registry lists; pointer equality
  becomes index equality, `NULL` becomes `Option.none`.
* Machine integers carry their C width explicitly: `uint8_t` counters
  wrap modulo 256, `size_t` modulo 2^64, `uint32_t` subtraction is
  performed modulo 2^32.
* jansson JSON values are modelled by the inductive `JVal`; `json_dumps`
  is modelled by `jdumps` (flag 0 = spaced separators, `JSON_COMPACT` =
  tight separators); `json_loads` is abstracted by taking the parsed
  `Option JVal` as the input of the receive callback (`none` = parse
  failure).
* `lws_write` is abstracted as a successful write returning the length
  of the serialized frame; outbound traffic is accumulated in a
  send log (`SentMsg`) instead of being handed to the socket layer.
* Reference counting of `message_t` (`message_ref`/`message_unref`) is
  memory management with no observable protocol effect and is omitted.
-/

namespace RedRTC

/-- Lower-case hexadecimal digit, as printed by `snprintf %x`. -/
def hexDigit (n : Nat) : Char :=
  if n < 10 then Char.ofNat (48 + n) else Char.ofNat (87 + n)

/-- Zero-padded fixed-width hexadecimal rendering (`%0wx` under the masks
used in `generate_uuid`, which keep every value below `16^w`). -/
def hexPad : Nat → Nat → String
  | 0, _ => ""
  | w + 1, n => (hexPad w (n / 16)).push (hexDigit (n % 16))

/-- The six `rand_r` draws consumed by one call of `generate_uuid`. -/
structure Uuid6 where
  r1 : Nat
  r2 : Nat
  r3 : Nat
  r4 : Nat
  r5 : Nat
  r6 : Nat
deriving DecidableEq, Repr

/-- `generate_uuid` (utilities.c): `snprintf "%08x-%04x-4%03x-%04x-%08x%04x"`
applied to the six masked `rand_r` values. -/
def generate_uuid (e : Uuid6) : String :=
  hexPad 8 (e.r1 % 2 ^ 32) ++ "-" ++ hexPad 4 (e.r2 % 2 ^ 16) ++ "-4" ++
    hexPad 3 (e.r3 % 2 ^ 12) ++ "-" ++ hexPad 4 ((e.r4 % 2 ^ 14) ||| 0x8000) ++ "-" ++
    hexPad 8 (e.r5 % 2 ^ 32) ++ hexPad 4 (e.r6 % 2 ^ 16)

/-- `safe_strncpy` (utilities.c) viewed on strings: copy at most
`destSize - 1` characters (byte/char distinction abstracted; every string
the claims touch is ASCII). -/
def safe_strncpy_str (destSize : Nat) (src : String) : String :=
  src.take (destSize - 1)

/-- uint8_t increment. -/
def u8inc (n : Nat) : Nat := (n + 1) % 256

/-- uint8_t decrement (wraps at 0, as `participant_count--` does). -/
def u8dec (n : Nat) : Nat := (n + 255) % 256

/-- size_t increment. -/
def u64inc (n : Nat) : Nat := (n + 1) % 2 ^ 64

/-- size_t decrement (wraps at 0). -/
def u64dec (n : Nat) : Nat := (n + (2 ^ 64 - 1)) % 2 ^ 64

/-- uint32_t subtraction `a - b`, as evaluated in `client_is_timed_out`. -/
def u32sub (a b : Nat) : Nat := (a % 2 ^ 32 + 2 ^ 32 - b % 2 ^ 32) % 2 ^ 32

/-- jansson JSON values. -/
inductive JVal where
  | jnull : JVal
  | jbool : Bool → JVal
  | jnum : Int → JVal
  | jstr : String → JVal
  | jarr : List JVal → JVal
  | jobj : List (String × JVal) → JVal

/-- Is this value a JSON string? (`json_is_string`). -/
def JVal.isStr : JVal → Bool
  | .jstr _ => true
  | _ => false

/-- Is this value a JSON object? -/
def JVal.isObj : JVal → Bool
  | .jobj _ => true
  | _ => false

/-- `json_object_get`: field lookup on objects, `NULL` on everything else. -/
def jGet (v : JVal) (k : String) : Option JVal :=
  match v with
  | .jobj fs => lookupField fs
  | _ => none
where
  lookupField : List (String × JVal) → Option JVal
    | [] => none
    | (k', v') :: fs => if k' = k then some v' else lookupField fs

/-- `json_string_value`: the text of a string value, `NULL` otherwise. -/
def jAsString : JVal → Option String
  | .jstr s => some s
  | _ => none

/-- One character of jansson string escaping. -/
def jescChar (c : Char) : String :=
  if c = '"' then "\\\""
  else if c = '\\' then "\\\\"
  else if c.toNat < 32 then "\\u" ++ hexPad 4 c.toNat
  else String.singleton c

/-- jansson string escaping. -/
def jescape (s : String) : String :=
  s.data.foldl (fun a c => a ++ jescChar c) ""

/-- A JSON string literal. -/
def jstrLit (s : String) : String := "\"" ++ jescape s ++ "\""

mutual

/-- `json_dumps`: `compact = true` models the `JSON_COMPACT` flag used by
`message_serialize`; `compact = false` models flag `0` (separators
`", "` and `": "`) used by the protocol handlers. -/
def jdumps (compact : Bool) : JVal → String
  | .jnull => "null"
  | .jbool b => if b then "true" else "false"
  | .jnum n => toString n
  | .jstr s => jstrLit s
  | .jarr xs => "[" ++ jdumpsList compact xs ++ "]"
  | .jobj fs => "\x7b" ++ jdumpsFields compact fs ++ "\x7d"

/-- Array items of `json_dumps`. -/
def jdumpsList (compact : Bool) : List JVal → String
  | [] => ""
  | [x] => jdumps compact x
  | x :: y :: xs =>
      jdumps compact x ++ (if compact then "," else ", ") ++ jdumpsList compact (y :: xs)

/-- Object fields of `json_dumps`. -/
def jdumpsFields (compact : Bool) : List (String × JVal) → String
  | [] => ""
  | [(k, v)] => jstrLit k ++ (if compact then ":" else ": ") ++ jdumps compact v
  | (k, v) :: f :: fs =>
      jstrLit k ++ (if compact then ":" else ": ") ++ jdumps compact v ++
        (if compact then "," else ", ") ++ jdumpsFields compact (f :: fs)

end

/-- First index whose element satisfies `p` — the linear slot scans of
client.c / room.c. -/
def findSlot (p : α → Bool) : List α → Option Nat
  | [] => none
  | x :: xs => if p x then some 0 else (findSlot p xs).map (· + 1)

/-- Number of elements satisfying `p`. -/
def countB (p : α → Bool) : List α → Nat
  | [] => 0
  | x :: xs => (if p x then 1 else 0) + countB p xs

/-- `client_state_t`. -/
inductive ClientState where
  | connected
  | joiningRoom
  | inRoom
  | disconnecting
deriving DecidableEq, Repr

/-- `client_t`; `wsi` is the opaque connection handle, `room` the
back-pointer into the room registry (`NULL` = `none`). -/
structure Client where
  id : String
  wsi : Nat
  room : Option Nat
  state : ClientState
  lastActivity : Nat
  connectTime : Nat
  messagesSent : Nat
  messagesReceived : Nat
  isAlive : Bool
deriving DecidableEq, Repr

instance : Inhabited Client :=
  ⟨{ id := "", wsi := 0, room := none, state := .connected, lastActivity := 0,
     connectTime := 0, messagesSent := 0, messagesReceived := 0, isAlive := false }⟩

/-- `room_state_t`. -/
inductive RoomState where
  | active
  | empty
  | closing
deriving DecidableEq, Repr

/-- `participant_t`; `client` points into the client registry. -/
structure Participant where
  client : Option Nat
  joinTime : Nat
  isOwner : Bool
deriving DecidableEq, Repr

instance : Inhabited Participant := ⟨{ client := none, joinTime := 0, isOwner := false }⟩

/-- `MAX_PARTICIPANTS`. -/
def MAX_PARTICIPANTS : Nat := 6

/-- `room_t`. -/
structure Room where
  id : String
  name : String
  participants : List Participant
  participantCount : Nat
  state : RoomState
  createdAt : Nat
  lastActivity : Nat
  owner : Option Nat
deriving DecidableEq, Repr

instance : Inhabited Room :=
  ⟨{ id := "", name := "", participants := List.replicate MAX_PARTICIPANTS default,
     participantCount := 0, state := .active, createdAt := 0, lastActivity := 0,
     owner := none }⟩

/-- `client_registry_t`; the `clients` list has length `max_clients`
(the calloc-ed slot array), so `max_clients` is not stored separately. -/
structure ClientRegistry where
  clients : List Client
  activeCount : Nat
  totalConnections : Nat
deriving DecidableEq, Repr

/-- `room_registry_t`. -/
structure RoomRegistry where
  rooms : List Room
  activeRooms : Nat
  totalRoomsCreated : Nat
deriving DecidableEq, Repr

/-- `message_t` (event plus parsed data; reference count omitted). -/
structure MessageT where
  event : String
  data : Option JVal

/-- `ws_message_t`. -/
structure WsMsg where
  wsi : Nat
  message : Option MessageT
  timestamp : Nat

instance : Inhabited WsMsg := ⟨{ wsi := 0, message := none, timestamp := 0 }⟩

/-- `message_queue_t`; `messages` has length `capacity`. -/
structure MessageQueue where
  messages : List WsMsg
  capacity : Nat
  head : Nat
  tail : Nat
  count : Nat

/-- One frame handed to `client_send_message`: destination client slot,
event name, and the `const char *data` argument (`NULL` = `none`). -/
structure SentMsg where
  target : Nat
  event : String
  data : Option String
deriving DecidableEq, Repr

instance : Inhabited SentMsg := ⟨{ target := 0, event := "", data := none }⟩

/-- The wire envelope `message_serialize` builds for a logged send:
`message_create(event, data ? json_string(data) : NULL)` followed by
`{"event": .., "data": ..}` assembly. -/
def sentEnvelope (m : SentMsg) : JVal :=
  .jobj (("event", .jstr m.event) ::
    (match m.data with
     | some d => [("data", JVal.jstr d)]
     | none => []))

/-- `server_context_t` restricted to the core state the claims touch,
plus the outbound send log. -/
structure ServerState where
  clients : ClientRegistry
  rooms : RoomRegistry
  msgQueue : MessageQueue
  totalMessages : Nat
  totalErrors : Nat
  sent : List SentMsg

/-! ### client.c -/

/-- `client_init`: fresh slot contents after the `memset` and field writes. -/
def client_init (wsi : Nat) (e : Uuid6) (now : Nat) : Client :=
  { id := generate_uuid e, wsi := wsi, room := none, state := .connected,
    lastActivity := now, connectTime := now, messagesSent := 0,
    messagesReceived := 0, isAlive := true }

/-- `client_update_activity`. -/
def client_update_activity (c : Client) (now : Nat) : Client :=
  { c with lastActivity := now }

/-- `client_is_timed_out`: `(get_timestamp_sec() - last_activity) > timeout_sec`
in uint32 arithmetic. -/
def client_is_timed_out (c : Client) (now timeoutSec : Nat) : Bool :=
  u32sub now c.lastActivity > timeoutSec

/-- `client_send_message`: returns the `lws_write` result (modelled as the
length of the serialized frame), the updated client list (`messages_sent`
incremented on a positive result) and the emitted frame. A dead client or a
missing slot sends nothing and returns `-1`. -/
def client_send_message (clients : List Client) (cIdx : Nat) (event : String)
    (data : Option String) : Int × List Client × List SentMsg :=
  match clients[cIdx]? with
  | none => (-1, clients, [])
  | some c =>
    if c.isAlive then
      let wire := jdumps true (sentEnvelope { target := cIdx, event := event, data := data })
      let ret : Int := Int.ofNat wire.length
      let clients' :=
        if ret > 0 then clients.set cIdx { c with messagesSent := c.messagesSent + 1 }
        else clients
      (ret, clients', [{ target := cIdx, event := event, data := data }])
    else (-1, clients, [])

/-- `client_registry_add`: first slot with `is_alive == false` is
re-initialized; full registry refuses. -/
def client_registry_add (reg : ClientRegistry) (wsi : Nat) (e : Uuid6) (now : Nat) :
    Option Nat × ClientRegistry :=
  match findSlot (fun c => !c.isAlive) reg.clients with
  | some i =>
    (some i,
     { clients := reg.clients.set i (client_init wsi e now),
       activeCount := u64inc reg.activeCount,
       totalConnections := u64inc reg.totalConnections })
  | none => (none, reg)

/-- `client_registry_remove`: only flips liveness/state and decrements the
active counter (the `client_cleanup` body is inlined). -/
def client_registry_remove (reg : ClientRegistry) (cIdx : Nat) : ClientRegistry :=
  match reg.clients[cIdx]? with
  | some c =>
    if c.isAlive then
      { reg with
        clients := reg.clients.set cIdx { c with isAlive := false, state := .disconnecting },
        activeCount := u64dec reg.activeCount }
    else reg
  | none => reg

/-- `client_registry_find_by_wsi`. -/
def client_registry_find_by_wsi (reg : ClientRegistry) (wsi : Nat) : Option Nat :=
  findSlot (fun c => c.isAlive && c.wsi == wsi) reg.clients

/-! ### message queue (message.c) -/

/-- `message_deserialize`, with `json_loads` abstracted into the caller:
the input is the parsed root (`none` = parse error). Requires a string
`event` field; `data` is optional. -/
def message_deserialize (root : Option JVal) : Option MessageT :=
  match root with
  | none => none
  | some r =>
    match jGet r "event" with
    | some (.jstr e) => some { event := e, data := jGet r "data" }
    | _ => none

/-- `message_queue_push`: refuse and leave the queue untouched when
`count >= capacity`, else write the ring slot at `tail`. -/
def message_queue_push (q : MessageQueue) (wsi : Nat) (msg : MessageT) (nowMs : Nat) :
    Int × MessageQueue :=
  if q.count ≥ q.capacity then (-1, q)
  else
    (0,
     { q with
       messages := q.messages.set q.tail { wsi := wsi, message := some msg, timestamp := nowMs },
       tail := (q.tail + 1) % q.capacity,
       count := q.count + 1 })

/-! ### room.c -/

/-- `room_is_full` (callers pass a non-NULL room). -/
def room_is_full (room : Room) : Bool :=
  room.participantCount ≥ MAX_PARTICIPANTS

/-- `room_is_empty` on a possibly-NULL room pointer
(`room && room->participant_count == 0`). -/
def room_is_empty (room : Option Room) : Bool :=
  match room with
  | some r => r.participantCount == 0
  | none => false

/-- `room_find_participant`: first slot whose client's id string equals
`cid` (the `strcmp` needs the client registry to dereference the slot's
pointer). Returns the found client's index. -/
def room_find_participant (room : Room) (clients : List Client) (cid : String) :
    Option Nat :=
  match findSlot
      (fun p => match p.client with
        | some j => (clients.getD j default).id == cid
        | none => false)
      room.participants with
  | some i => (room.participants.getD i default).client
  | none => none

/-- The room-local mutation performed by `room_add_participant` once the
empty slot `i` has been found: fill the slot, bump the count, refresh
`last_activity`. -/
def room_add_update (room : Room) (cIdx i now : Nat) : Room :=
  { room with
    participants := room.participants.set i
      { client := some cIdx, joinTime := now, isOwner := room.owner == some cIdx },
    participantCount := u8inc room.participantCount,
    lastActivity := now }

/-- `room_add_participant` on registry indices: the result code together
with the updated room and client lists. `-1` = NULL argument or full room,
`-2` = already in this room (by id), `-3` = in another room, `-4` = the
"should never happen" no-empty-slot branch. -/
def room_add_participant (rooms : List Room) (clients : List Client)
    (rIdx cIdx : Nat) (now : Nat) : Int × List Room × List Client :=
  match rooms[rIdx]?, clients[cIdx]? with
  | some room, some client =>
    if room_is_full room then (-1, rooms, clients)
    else if (room_find_participant room clients client.id).isSome then (-2, rooms, clients)
    else if (match client.room with | some r => r ≠ rIdx | none => false : Bool) then
      (-3, rooms, clients)
    else
      match findSlot (fun p => p.client == none) room.participants with
      | some i =>
        let client' := { client with room := some rIdx, state := ClientState.inRoom }
        (0, rooms.set rIdx (room_add_update room cIdx i now), clients.set cIdx client')
      | none => (-4, rooms, clients)
  | _, _ => (-1, rooms, clients)

/-- Slot `i`'s contents after `room_remove_participant` clears it: client
pointer NULLed, `is_owner` reset, `join_time` left as it was. -/
def clearedSlot (room : Room) (i : Nat) : Participant :=
  { client := none, joinTime := (room.participants.getD i default).joinTime,
    isOwner := false }

/-- The participant array after slot `i` has been cleared. -/
def partsCleared (room : Room) (i : Nat) : List Participant :=
  room.participants.set i (clearedSlot room i)

/-- The room-local mutation performed by `room_remove_participant` once
slot `i` (holding the departing client `cIdx`) has been found: clear the
slot, decrement the count, refresh `last_activity`, and transfer ownership
to the lowest-index remaining participant when the owner left a still
non-empty room. -/
def room_remove_update (room : Room) (cIdx i now : Nat) : Room :=
  let parts1 := partsCleared room i
  let dec := u8dec room.participantCount
  let room1 :=
    { room with
      participants := parts1, participantCount := dec, lastActivity := now }
  if room.owner == some cIdx && dec > 0 then
    match findSlot (fun p => !(p.client == none)) parts1 with
    | some j =>
      { room1 with
        owner := (parts1.getD j default).client,
        participants := parts1.set j
          { parts1.getD j default with isOwner := true } }
    | none => room1
  else room1

/-- `room_remove_participant`: find the first slot holding the client,
apply `room_remove_update` to the room, and reset the client's
back-reference and state to CONNECTED. `-1` = NULL argument or not
found. -/
def room_remove_participant (rooms : List Room) (clients : List Client)
    (rIdx cIdx : Nat) (now : Nat) : Int × List Room × List Client :=
  match rooms[rIdx]?, clients[cIdx]? with
  | some room, some client =>
    match findSlot (fun p => p.client == some cIdx) room.participants with
    | some i =>
      let client' := { client with room := none, state := ClientState.connected }
      (0, rooms.set rIdx (room_remove_update room cIdx i now), clients.set cIdx client')
    | none => (-1, rooms, clients)
  | _, _ => (-1, rooms, clients)

/-- `room_cleanup`: reset the back-reference and state of every client
still referenced by a slot, zero the count, mark the room CLOSING and drop
the owner. The participant slots themselves are NOT cleared (faithful to
the source). -/
def room_cleanup (rooms : List Room) (clients : List Client) (rIdx : Nat) :
    List Room × List Client :=
  match rooms[rIdx]? with
  | none => (rooms, clients)
  | some room =>
    let clients' := room.participants.foldl
      (fun cl p =>
        match p.client with
        | some j =>
          match cl[j]? with
          | some c => cl.set j { c with room := none, state := ClientState.connected }
          | none => cl
        | none => cl)
      clients
    (rooms.set rIdx { room with participantCount := 0, state := .closing, owner := none },
     clients')

/-- `room_broadcast_message`: send to every live, non-excluded participant
in slot order, counting positive send results, then refresh
`last_activity`. -/
def room_broadcast_message (rooms : List Room) (clients : List Client) (rIdx : Nat)
    (excl : Option Nat) (event : String) (data : Option String) (now : Nat) :
    Nat × List Room × List Client × List SentMsg :=
  match rooms[rIdx]? with
  | none => (0, rooms, clients, [])
  | some room =>
    let step := fun (acc : Nat × List Client × List SentMsg) (p : Participant) =>
      match p.client with
      | none => acc
      | some j =>
        if some j = excl then acc
        else
          match acc.2.1[j]? with
          | none => acc
          | some c =>
            if !c.isAlive then acc
            else
              let (ret, cl', log) := client_send_message acc.2.1 j event data
              (acc.1 + (if ret > 0 then 1 else 0), cl', acc.2.2 ++ log)
    let (cnt, clients', log) := room.participants.foldl step (0, clients, [])
    (cnt, rooms.set rIdx { room with lastActivity := now }, clients', log)

/-- `room_registry_create`: first slot whose state is not ACTIVE is
re-initialized via `room_init` (which adds the owner as first
participant). A NULL name or a full registry refuses. -/
def room_registry_create (reg : RoomRegistry) (clients : List Client)
    (name : Option String) (owner : Option Nat) (e : Uuid6) (now : Nat) :
    Option Nat × RoomRegistry × List Client :=
  match name with
  | none => (none, reg, clients)
  | some nm =>
    match findSlot (fun r => !(r.state == RoomState.active)) reg.rooms with
    | some i =>
      let (rooms', clients') := room_init reg.rooms clients i nm owner e now
      (some i,
       { rooms := rooms', activeRooms := u64inc reg.activeRooms,
         totalRoomsCreated := reg.totalRoomsCreated + 1 },
       clients')
    | none => (none, reg, clients)
where
  /-- `room_init`: zero the slot, write id/name/state/timestamps/owner, and
  add the owner as first participant when provided. -/
  room_init (rooms : List Room) (clients : List Client) (rIdx : Nat) (nm : String)
      (owner : Option Nat) (e : Uuid6) (now : Nat) : List Room × List Client :=
    let fresh : Room :=
      { id := generate_uuid e, name := safe_strncpy_str 64 nm,
        participants := List.replicate MAX_PARTICIPANTS default,
        participantCount := 0, state := .active, createdAt := now,
        lastActivity := now, owner := owner }
    let rooms1 := rooms.set rIdx fresh
    match owner with
    | some cIdx =>
      let (_, rooms2, clients2) := room_add_participant rooms1 clients rIdx cIdx now
      (rooms2, clients2)
    | none => (rooms1, clients)

/-- `room_registry_find_by_id`: first ACTIVE room with the given id. -/
def room_registry_find_by_id (rooms : List Room) (rid : String) : Option Nat :=
  findSlot (fun r => r.state == RoomState.active && r.id == rid) rooms

/-- `room_registry_remove_empty_rooms`: clean up every ACTIVE room with
zero participants (threads the client list because `room_cleanup` resets
back-references). -/
def room_registry_remove_empty_rooms (reg : RoomRegistry) (clients : List Client) :
    RoomRegistry × List Client :=
  (List.range reg.rooms.length).foldl
    (fun (acc : RoomRegistry × List Client) i =>
      match acc.1.rooms[i]? with
      | some r =>
        if r.state == RoomState.active && room_is_empty (some r) then
          let (rooms', clients') := room_cleanup acc.1.rooms acc.2 i
          ({ acc.1 with rooms := rooms', activeRooms := u64dec acc.1.activeRooms }, clients')
        else acc
      | none => acc)
    (reg, clients)

/-! ### server translation unit (protocol handlers and callbacks) -/

/-- Run `client_send_message` against the server state, appending the
emitted frame to the log (the handlers ignore the numeric result). -/
def ssSend (s : ServerState) (cIdx : Nat) (event : String) (data : Option String) :
    ServerState :=
  let (_, cl', log) := client_send_message s.clients.clients cIdx event data
  { s with clients := { s.clients with clients := cl' }, sent := s.sent ++ log }

/-- The id array the join/leave handlers build: ids of non-empty slots in
slot order. -/
def participantIds (room : Room) (clients : List Client) : List String :=
  room.participants.filterMap
    (fun p => p.client.map (fun j => (clients.getD j default).id))

/-- The `participants` payload `{"roomId": .., "participants": [..]}` as
dumped with jansson flag 0. -/
def participantsPayload (room : Room) (clients : List Client) : String :=
  jdumps false (.jobj
    [("roomId", .jstr room.id),
     ("participants", .jarr ((participantIds room clients).map JVal.jstr))])

/-- `handle_leave_room`: no-op without a current room; otherwise remove
the client and, when the room is still non-empty, broadcast the updated
participant list to the remaining members. -/
def handle_leave_room (s : ServerState) (cIdx : Nat) (now : Nat) : ServerState :=
  match s.clients.clients[cIdx]? with
  | none => s
  | some c =>
    match c.room with
    | none => s
    | some rIdx =>
      let (_, rooms', clients') :=
        room_remove_participant s.rooms.rooms s.clients.clients rIdx cIdx now
      let s1 :=
        { s with
          rooms := { s.rooms with rooms := rooms' },
          clients := { s.clients with clients := clients' } }
      if room_is_empty rooms'[rIdx]? then s1
      else
        let room := rooms'.getD rIdx default
        let payload := participantsPayload room clients'
        let (_, rooms'', clients'', log) :=
          room_broadcast_message rooms' clients' rIdx none "participants" (some payload) now
        { s1 with
          rooms := { s1.rooms with rooms := rooms'' },
          clients := { s1.clients with clients := clients'' },
          sent := s1.sent ++ log }

/-- The shared tail of `handle_join_room` after the room has been found or
created: attempt `room_add_participant`, reply the capacity error on any
non-zero result, otherwise broadcast the post-add participant list. -/
def joinRoomPhase (s : ServerState) (cIdx rIdx : Nat) (now : Nat) : ServerState :=
  let (ret, rooms', clients') :=
    room_add_participant s.rooms.rooms s.clients.clients rIdx cIdx now
  let s1 :=
    { s with
      rooms := { s.rooms with rooms := rooms' },
      clients := { s.clients with clients := clients' } }
  if ret ≠ 0 then ssSend s1 cIdx "error" (some "Room is full (max 6 participants)")
  else
    let room := rooms'.getD rIdx default
    let payload := participantsPayload room clients'
    let (_, rooms'', clients'', log) :=
      room_broadcast_message rooms' clients' rIdx none "participants" (some payload) now
    { s1 with
      rooms := { s1.rooms with rooms := rooms'' },
      clients := { s1.clients with clients := clients'' },
      sent := s1.sent ++ log }

/-- `handle_join_room`: extract `roomId`/`roomName`, perform the implicit
leave, find the room by id or create a new one (notifying the creator with
`room-created`), then join. A `roomName` field that is present but not a
string makes `json_string_value` return NULL, so creation then refuses. -/
def handle_join_room (s : ServerState) (cIdx : Nat) (data : Option JVal)
    (e : Uuid6) (now : Nat) : ServerState :=
  let roomIdOpt : Option String := data.bind (fun d => (jGet d "roomId").bind jAsString)
  let roomNameOpt : Option String :=
    match data with
    | none => some "Unnamed Room"
    | some d =>
      match jGet d "roomName" with
      | none => some "Unnamed Room"
      | some v => jAsString v
  let s1 := handle_leave_room s cIdx now
  let found : Option Nat :=
    roomIdOpt.bind (fun rid => room_registry_find_by_id s1.rooms.rooms rid)
  match found with
  | some rIdx => joinRoomPhase s1 cIdx rIdx now
  | none =>
    match room_registry_create s1.rooms s1.clients.clients roomNameOpt (some cIdx) e now with
    | (none, rooms', clients') =>
      let s2 :=
        { s1 with
          rooms := rooms',
          clients := { s1.clients with clients := clients' } }
      ssSend s2 cIdx "error" (some "Cannot create room")
    | (some rIdx, rooms', clients') =>
      let s2 :=
        { s1 with
          rooms := rooms',
          clients := { s1.clients with clients := clients' } }
      let room := rooms'.rooms.getD rIdx default
      let payload := jdumps false (.jobj
        [("roomId", .jstr room.id), ("roomName", .jstr room.name)])
      let s3 := ssSend s2 cIdx "room-created" (some payload)
      joinRoomPhase s3 cIdx rIdx now

/-- The common body of `handle_offer_message`, `handle_answer_message` and
`handle_ice_candidate`, which differ only in the forwarded event name `ev`
and the payload key `key` ("offer"/"offer", "answer"/"answer",
"ice-candidate"/"candidate"). -/
def handleSignaling (s : ServerState) (cIdx : Nat) (data : Option JVal)
    (ev key : String) : ServerState :=
  match s.clients.clients[cIdx]? with
  | none => s
  | some c =>
    match c.room with
    | none => ssSend s cIdx "error" (some "Not in a room")
    | some rIdx =>
      let tcid : Option String :=
        (data.bind (fun d => jGet d "targetClientId")).bind jAsString
      match tcid with
      | none => ssSend s cIdx "error" (some "Missing target client ID")
      | some t =>
        match (s.rooms.rooms[rIdx]?).bind
            (fun room => room_find_participant room s.clients.clients t) with
        | none => ssSend s cIdx "error" (some "Target client not found in room")
        | some tgt =>
          let fields := ("fromClientId", JVal.jstr c.id) ::
            (match data.bind (fun d => jGet d key) with
             | some v => [(key, v)]
             | none => [])
          ssSend s tgt ev (some (jdumps false (.jobj fields)))

/-- `handle_offer_message`. -/
def handle_offer_message (s : ServerState) (cIdx : Nat) (data : Option JVal) :
    ServerState :=
  handleSignaling s cIdx data "offer" "offer"

/-- `handle_answer_message`. -/
def handle_answer_message (s : ServerState) (cIdx : Nat) (data : Option JVal) :
    ServerState :=
  handleSignaling s cIdx data "answer" "answer"

/-- `handle_ice_candidate`. -/
def handle_ice_candidate (s : ServerState) (cIdx : Nat) (data : Option JVal) :
    ServerState :=
  handleSignaling s cIdx data "ice-candidate" "candidate"

/-- `LWS_CALLBACK_ESTABLISHED`: allocate a client slot and, on success,
synchronously send the `client-id` envelope with the assigned id. -/
def lws_established (s : ServerState) (wsi : Nat) (e : Uuid6) (now : Nat) :
    ServerState :=
  match client_registry_add s.clients wsi e now with
  | (none, reg') => { s with clients := reg' }
  | (some i, reg') =>
    let s1 := { s with clients := reg' }
    let uid := (reg'.clients.getD i default).id
    ssSend s1 i "client-id" (some (jdumps false (.jobj [("clientId", .jstr uid)])))

/-- `LWS_CALLBACK_RECEIVE`: update activity, deserialize, push to the
ingress queue (the push result is ignored); a parse failure increments the
error counter. `root` is the `json_loads` result of the frame. -/
def lws_receive (s : ServerState) (wsi : Nat) (root : Option JVal)
    (nowMs now : Nat) : ServerState :=
  match client_registry_find_by_wsi s.clients wsi with
  | none => s
  | some i =>
    let clients' :=
      match s.clients.clients[i]? with
      | some c => s.clients.clients.set i (client_update_activity c now)
      | none => s.clients.clients
    let s1 := { s with clients := { s.clients with clients := clients' } }
    match message_deserialize root with
    | some m =>
      let (_, q') := message_queue_push s1.msgQueue wsi m nowMs
      { s1 with msgQueue := q' }
    | none => { s1 with totalErrors := s1.totalErrors + 1 }

/-- `LWS_CALLBACK_CLOSED`: implicit leave, then registry removal. -/
def lws_closed (s : ServerState) (wsi : Nat) (now : Nat) : ServerState :=
  match client_registry_find_by_wsi s.clients wsi with
  | none => s
  | some i =>
    let s1 := handle_leave_room s i now
    { s1 with clients := client_registry_remove s1.clients i }

/-- The timeout pass of `server_run`'s reaper: every live, timed-out
client is removed with `client_registry_remove` ALONE — the source
performs no implicit room leave here. -/
def reapClients (reg : ClientRegistry) (now timeoutSec : Nat) : ClientRegistry :=
  (List.range reg.clients.length).foldl
    (fun r i =>
      match r.clients[i]? with
      | some c =>
        if c.isAlive && client_is_timed_out c now timeoutSec then
          client_registry_remove r i
        else r
      | none => r)
    reg

/-- One ≥10 s cleanup cycle of `server_run`: reap timed-out clients, then
remove empty rooms. -/
def server_reap (s : ServerState) (now timeoutSec : Nat) : ServerState :=
  let cr := reapClients s.clients now timeoutSec
  let (rr, clients') := room_registry_remove_empty_rooms s.rooms cr.clients
  { s with clients := { cr with clients := clients' }, rooms := rr }

/-- The spec's room-owner invariant: the owner, if set, occupies some
participant slot. -/
def ownerPresentB (room : Room) : Bool :=
  match room.owner with
  | none => true
  | some j => (findSlot (fun p => p.client == some j) room.participants).isSome

/-! ### Concrete fixtures used by the claim theorems -/

/-- Fixture: a single connected client "A" outside any room, one inactive
room slot, a small empty ingress queue. -/
def c9client : Client :=
  { id := "A", wsi := 5, room := none, state := .connected, lastActivity := 0,
    connectTime := 0, messagesSent := 0, messagesReceived := 0, isAlive := true }

/-- Fixture: an inactive (reaped) room slot. -/
def c9room : Room :=
  { id := "", name := "", participants := List.replicate MAX_PARTICIPANTS default,
    participantCount := 0, state := .closing, createdAt := 0, lastActivity := 0,
    owner := none }

/-- Fixture: an empty four-slot ingress queue. -/
def c9queue : MessageQueue :=
  { messages := List.replicate 4 default, capacity := 4, head := 0, tail := 0, count := 0 }

/-- Fixture: the server state holding the above. -/
def c9state : ServerState :=
  { clients := { clients := [c9client], activeCount := 1, totalConnections := 1 },
    rooms := { rooms := [c9room], activeRooms := 0, totalRoomsCreated := 0 },
    msgQueue := c9queue, totalMessages := 0, totalErrors := 0, sent := [] }

/-- Fixture: an active empty room with a consistent participant count. -/
def c10room : Room :=
  { id := "R10", name := "demo", participants := List.replicate MAX_PARTICIPANTS default,
    participantCount := 0, state := .active, createdAt := 0, lastActivity := 0,
    owner := none }

/-- Fixture: a connected client outside any room. -/
def c10client : Client :=
  { id := "X", wsi := 2, room := none, state := .connected, lastActivity := 0,
    connectTime := 0, messagesSent := 0, messagesReceived := 0, isAlive := true }

/-- Fixture for C1: one connected client "A" with no room, one free
(closing) room slot. -/
def c1client : Client :=
  { id := "A", wsi := 5, room := none, state := .connected, lastActivity := 0,
    connectTime := 0, messagesSent := 0, messagesReceived := 0, isAlive := true }

/-- Fixture for C1: the free room slot. -/
def c1room : Room :=
  { id := "", name := "", participants := List.replicate MAX_PARTICIPANTS default,
    participantCount := 0, state := .closing, createdAt := 0, lastActivity := 0,
    owner := none }

/-- Fixture for C1: server state before the join-room request. -/
def c1state : ServerState :=
  { clients := { clients := [c1client], activeCount := 1, totalConnections := 1 },
    rooms := { rooms := [c1room], activeRooms := 0, totalRoomsCreated := 0 },
    msgQueue := { messages := List.replicate 4 default, capacity := 4, head := 0,
                  tail := 0, count := 0 },
    totalMessages := 0, totalErrors := 0, sent := [] }

/-- Fixture for C2: client "A" inside room "R", idle since time 0. -/
def c2client : Client :=
  { id := "A", wsi := 5, room := some 0, state := .inRoom, lastActivity := 0,
    connectTime := 0, messagesSent := 0, messagesReceived := 0, isAlive := true }

/-- Fixture for C2: the room holding client 0 as its only member/owner. -/
def c2room : Room :=
  { id := "R", name := "demo",
    participants := { client := some 0, joinTime := 0, isOwner := true } ::
      List.replicate 5 default,
    participantCount := 1, state := .active, createdAt := 0, lastActivity := 0,
    owner := some 0 }

/-- Fixture for C2: server state before the reap cycle. -/
def c2state : ServerState :=
  { clients := { clients := [c2client], activeCount := 1, totalConnections := 1 },
    rooms := { rooms := [c2room], activeRooms := 1, totalRoomsCreated := 1 },
    msgQueue := { messages := List.replicate 4 default, capacity := 4, head := 0,
                  tail := 0, count := 0 },
    totalMessages := 0, totalErrors := 0, sent := [] }

/-- Fixture for C3: a registry with one free (dead) slot. -/
def c3state : ServerState :=
  { clients := { clients := [default], activeCount := 0, totalConnections := 0 },
    rooms := { rooms := [], activeRooms := 0, totalRoomsCreated := 0 },
    msgQueue := { messages := List.replicate 4 default, capacity := 4, head := 0,
                  tail := 0, count := 0 },
    totalMessages := 0, totalErrors := 0, sent := [] }

/-- Fixture for C4: the parsed frame pushed while the queue is full. -/
def c4msg : MessageT := { event := "ping", data := none }

/-- Fixture for C4: a live client on handle 5. -/
def c4client : Client :=
  { id := "A", wsi := 5, room := none, state := .connected, lastActivity := 0,
    connectTime := 0, messagesSent := 0, messagesReceived := 0, isAlive := true }

/-- Fixture for C4: server state whose one-slot ingress queue already
holds one entry. -/
def c4state : ServerState :=
  { clients := { clients := [c4client], activeCount := 1, totalConnections := 1 },
    rooms := { rooms := [], activeRooms := 0, totalRoomsCreated := 0 },
    msgQueue := { messages := [{ wsi := 5, message := some c4msg, timestamp := 0 }],
                  capacity := 1, head := 0, tail := 0, count := 1 },
    totalMessages := 0, totalErrors := 0, sent := [] }

/-- Fixture for C5: sender "A" in room 0 (slot 0, owner). -/
def c5clientA : Client :=
  { id := "A", wsi := 5, room := some 0, state := .inRoom, lastActivity := 0,
    connectTime := 0, messagesSent := 0, messagesReceived := 0, isAlive := true }

/-- Fixture for C5: peer "B" in room 0 (slot 1). -/
def c5clientB : Client :=
  { id := "B", wsi := 6, room := some 0, state := .inRoom, lastActivity := 0,
    connectTime := 0, messagesSent := 0, messagesReceived := 0, isAlive := true }

/-- Fixture for C5: the room holding A (owner) and B. -/
def c5room : Room :=
  { id := "R", name := "demo",
    participants := { client := some 0, joinTime := 0, isOwner := true } ::
      { client := some 1, joinTime := 0, isOwner := false } ::
      List.replicate 4 default,
    participantCount := 2, state := .active, createdAt := 0, lastActivity := 0,
    owner := some 0 }

/-- Fixture for C5: the server state around that room. -/
def c5state : ServerState :=
  { clients := { clients := [c5clientA, c5clientB], activeCount := 2,
                 totalConnections := 2 },
    rooms := { rooms := [c5room], activeRooms := 1, totalRoomsCreated := 1 },
    msgQueue := { messages := List.replicate 4 default, capacity := 4, head := 0,
                  tail := 0, count := 1 },
    totalMessages := 0, totalErrors := 0, sent := [] }

/-- Fixture for C8: the roomless seventh client. -/
def c8joiner : Client :=
  { id := "J", wsi := 9, room := none, state := .connected, lastActivity := 0,
    connectTime := 0, messagesSent := 0, messagesReceived := 0, isAlive := true }

/-- Fixture for C8: the six room members (client indices 1..6). -/
def c8members : List Client :=
  (List.range 6).map (fun n =>
    { id := "P" ++ toString n, wsi := 10 + n, room := some 0, state := .inRoom,
      lastActivity := 0, connectTime := 0, messagesSent := 0, messagesReceived := 0,
      isAlive := true })

/-- Fixture for C8: the full room "R". -/
def c8room : Room :=
  { id := "R", name := "demo",
    participants := (List.range 6).map (fun n =>
      { client := some (n + 1), joinTime := 0, isOwner := n == 0 }),
    participantCount := 6, state := .active, createdAt := 0, lastActivity := 0,
    owner := some 1 }

/-- Fixture for C8: server state with the full room and the joiner. -/
def c8state : ServerState :=
  { clients := { clients := c8joiner :: c8members, activeCount := 7,
                 totalConnections := 7 },
    rooms := { rooms := [c8room], activeRooms := 1, totalRoomsCreated := 1 },
    msgQueue := { messages := List.replicate 4 default, capacity := 4, head := 0,
                  tail := 0, count := 0 },
    totalMessages := 0, totalErrors := 0, sent := [] }

/-- Fixture for C6: client "A" alone in the room, as its owner. -/
def c6client : Client :=
  { id := "A", wsi := 5, room := some 0, state := .inRoom, lastActivity := 0,
    connectTime := 0, messagesSent := 0, messagesReceived := 0, isAlive := true }

/-- Fixture for C6: the single-member room owned by client 0. -/
def c6room : Room :=
  { id := "R", name := "demo",
    participants := { client := some 0, joinTime := 0, isOwner := true } ::
      List.replicate 5 default,
    participantCount := 1, state := .active, createdAt := 0, lastActivity := 0,
    owner := some 0 }

/-- Fixture for the C6 witness: owner "A" (slot 0) of a two-member room. -/
def c6clientW0 : Client :=
  { id := "A", wsi := 5, room := some 0, state := .inRoom, lastActivity := 0,
    connectTime := 0, messagesSent := 0, messagesReceived := 0, isAlive := true }

/-- Fixture for the C6 witness: member "B" (slot 1). -/
def c6clientW1 : Client :=
  { id := "B", wsi := 6, room := some 0, state := .inRoom, lastActivity := 0,
    connectTime := 0, messagesSent := 0, messagesReceived := 0, isAlive := true }

/-- Fixture for the C6 witness: the two-member room owned by client 0. -/
def c6roomW : Room :=
  { id := "R", name := "demo",
    participants := { client := some 0, joinTime := 0, isOwner := true } ::
      { client := some 1, joinTime := 0, isOwner := false } ::
      List.replicate 4 default,
    participantCount := 2, state := .active, createdAt := 0, lastActivity := 0,
    owner := some 0 }

/-- Fixture for C7: owner "A" (slot 0, flagged) of a two-member room. -/
def c7clientA : Client :=
  { id := "A", wsi := 5, room := some 0, state := .inRoom, lastActivity := 0,
    connectTime := 0, messagesSent := 0, messagesReceived := 0, isAlive := true }

/-- Fixture for C7: member "B" (slot 1). -/
def c7clientB : Client :=
  { id := "B", wsi := 6, room := some 0, state := .inRoom, lastActivity := 0,
    connectTime := 0, messagesSent := 0, messagesReceived := 0, isAlive := true }

/-- Fixture for C7: the two-member room owned (and flagged) by client 0. -/
def c7room : Room :=
  { id := "R", name := "demo",
    participants := { client := some 0, joinTime := 0, isOwner := true } ::
      { client := some 1, joinTime := 0, isOwner := false } ::
      List.replicate 4 default,
    participantCount := 2, state := .active, createdAt := 0, lastActivity := 0,
    owner := some 0 }

/-! ### Helper lemmas about the slot-scan primitives -/

theorem getq_set_self {α : Type _} (l : List α) (i : Nat) (a : α) (h : i < l.length) :
    (l.set i a)[i]? = some a := by
  induction l generalizing i with
  | nil => simp at h
  | cons x xs ih =>
    cases i with
    | zero => simp
    | succ n => simpa using ih n (by simpa using h)

theorem getq_set_ne {α : Type _} (l : List α) (i j : Nat) (a : α) (h : i ≠ j) :
    (l.set i a)[j]? = l[j]? := by
  induction l generalizing i j with
  | nil => simp
  | cons x xs ih =>
    cases i with
    | zero =>
      cases j with
      | zero => exact absurd rfl h
      | succ m => simp
    | succ n =>
      cases j with
      | zero => simp
      | succ m => simpa using ih n m (fun hnm => h (by simp [hnm]))

theorem getq_lt {α : Type _} {l : List α} {i : Nat} {x : α} (h : l[i]? = some x) :
    i < l.length := by
  induction l generalizing i with
  | nil => simp at h
  | cons y ys ih =>
    cases i with
    | zero => simp
    | succ n => simpa using ih (by simpa using h)

theorem getq_getD {α : Type _} (l : List α) (i : Nat) (d : α) :
    l.getD i d = (l[i]?).getD d :=
  List.getD_eq_getElem?_getD l i d

theorem mem_iff_getq {α : Type _} {x : α} {l : List α} :
    x ∈ l ↔ ∃ i : Nat, l[i]? = some x := by
  induction l with
  | nil => simp
  | cons y ys ih =>
    constructor
    · intro hm
      rcases List.mem_cons.mp hm with h | h
      · exact ⟨0, by simp [h]⟩
      · rcases ih.mp h with ⟨i, hi⟩
        exact ⟨i + 1, by simpa using hi⟩
    · rintro ⟨i, hi⟩
      cases i with
      | zero => simp at hi; simp [hi]
      | succ n => exact List.mem_cons_of_mem _ (ih.mpr ⟨n, by simpa using hi⟩)

theorem findSlot_some {α : Type _} {p : α → Bool} {l : List α} {i : Nat}
    (h : findSlot p l = some i) : ∃ x, l[i]? = some x ∧ p x = true := by
  induction l generalizing i with
  | nil => simp [findSlot] at h
  | cons x xs ih =>
    by_cases hp : p x
    · simp [findSlot, hp] at h
      exact ⟨x, by simp [← h], hp⟩
    · simp [findSlot, hp, Option.map_eq_some'] at h
      rcases h with ⟨i', hi', rfl⟩
      rcases ih hi' with ⟨y, hy, hpy⟩
      exact ⟨y, by simpa using hy, hpy⟩

theorem findSlot_none_iff {α : Type _} {p : α → Bool} {l : List α} :
    findSlot p l = none ↔ ∀ x ∈ l, p x = false := by
  induction l with
  | nil => simp [findSlot]
  | cons x xs ih =>
    by_cases hp : p x
    · constructor
      · intro h
        simp [findSlot, hp] at h
      · intro h
        exact absurd (h x (by simp)) (by simp [hp])
    · constructor
      · intro h
        simp [findSlot, hp] at h
        intro y hy
        rcases List.mem_cons.mp hy with rfl | hmem
        · simpa using hp
        · exact ih.mp h y hmem
      · intro h
        simp [findSlot, hp]
        exact ih.mpr (fun y hy => h y (List.mem_cons_of_mem _ hy))

theorem countB_le_length {α : Type _} (p : α → Bool) (l : List α) :
    countB p l ≤ l.length := by
  induction l with
  | nil => simp [countB]
  | cons x xs ih =>
    by_cases hp : p x <;> simp [countB, hp] <;> omega

theorem countB_eq_zero_iff {α : Type _} {p : α → Bool} {l : List α} :
    countB p l = 0 ↔ ∀ x ∈ l, p x = false := by
  induction l with
  | nil => simp [countB]
  | cons x xs ih =>
    by_cases hp : p x
    · constructor
      · intro h
        simp [countB, hp] at h
      · intro h
        exact absurd (h x (by simp)) (by simp [hp])
    · constructor
      · intro h
        simp [countB, hp] at h
        intro y hy
        rcases List.mem_cons.mp hy with rfl | hmem
        · simpa using hp
        · exact ih.mp h y hmem
      · intro h
        simp [countB, hp]
        exact ih.mpr (fun y hy => h y (List.mem_cons_of_mem _ hy))

theorem countB_not_add {α : Type _} (p : α → Bool) (l : List α) :
    countB (fun x => !p x) l + countB p l = l.length := by
  induction l with
  | nil => simp [countB]
  | cons x xs ih =>
    by_cases hp : p x <;> simp [countB, hp] <;> omega

theorem countB_set {α : Type _} {p : α → Bool} {l : List α} {i : Nat} {x : α} (a : α)
    (h : l[i]? = some x) :
    countB p (l.set i a) + (if p x then 1 else 0) =
      countB p l + (if p a then 1 else 0) := by
  induction l generalizing i with
  | nil => simp at h
  | cons y ys ih =>
    cases i with
    | zero =>
      simp at h
      subst h
      simp [countB]
      omega
    | succ n =>
      simp at h
      have := ih h
      simp [countB]
      omega

theorem countB_pos_of_getq {α : Type _} {p : α → Bool} {l : List α} {i : Nat} {x : α}
    (h : l[i]? = some x) (hp : p x = true) : 0 < countB p l := by
  induction l generalizing i with
  | nil => simp at h
  | cons y ys ih =>
    cases i with
    | zero =>
      simp at h
      subst h
      simp [countB, hp]
    | succ n =>
      have := ih (by simpa using h)
      simp [countB]
      omega

theorem findSlot_isSome_of_countB_pos {α : Type _} {p : α → Bool} {l : List α}
    (h : 0 < countB p l) : ∃ j, findSlot p l = some j := by
  cases hf : findSlot p l with
  | some j => exact ⟨j, rfl⟩
  | none =>
    have : countB p l = 0 := countB_eq_zero_iff.mpr (findSlot_none_iff.mp hf)
    omega

theorem findSlot_isSome_of_getq {α : Type _} {p : α → Bool} {l : List α} {k : Nat} {x : α}
    (h : l[k]? = some x) (hp : p x = true) : ∃ j, findSlot p l = some j :=
  findSlot_isSome_of_countB_pos (countB_pos_of_getq h hp)

theorem genUuid_length (e : Uuid6) : (generate_uuid e).length = 36 := by
  have hlen : ∀ w n, (hexPad w n).length = w := by
    intro w
    induction w with
    | zero => intro n; rfl
    | succ m ih => intro n; simp [hexPad, String.length_push, ih]
  simp [generate_uuid, String.length_append, hlen]
  decide

/-- `room_add_participant` either leaves the room slot untouched (any
error result) or applies `room_add_update` at the empty slot the scan
found. -/
theorem add_result_room (rooms : List Room) (clients : List Client)
    (rIdx cIdx now : Nat) (room : Room) (hr : rooms[rIdx]? = some room) :
    (room_add_participant rooms clients rIdx cIdx now).2.1[rIdx]? = some room ∨
    ∃ i pi, findSlot (fun p => p.client == none) room.participants = some i ∧
      room.participants[i]? = some pi ∧ (pi.client == none) = true ∧
      (room_add_participant rooms clients rIdx cIdx now).2.1[rIdx]? =
        some (room_add_update room cIdx i now) := by
  have hlt : rIdx < rooms.length := getq_lt hr
  unfold room_add_participant
  rw [hr]
  cases hcl : clients[cIdx]? with
  | none => exact Or.inl hr
  | some client =>
    simp only []
    by_cases hful : room_is_full room = true
    · rw [if_pos hful]
      exact Or.inl hr
    · rw [if_neg hful]
      by_cases hdup : (room_find_participant room clients client.id).isSome = true
      · rw [if_pos hdup]
        exact Or.inl hr
      · rw [if_neg hdup]
        by_cases hoth : (match client.room with
          | some r => r ≠ rIdx
          | none => false : Bool) = true
        · rw [if_pos hoth]
          exact Or.inl hr
        · rw [if_neg hoth]
          cases hemp : findSlot (fun p => p.client == none) room.participants with
          | none => exact Or.inl hr
          | some i =>
            obtain ⟨pi, hpi, hppi⟩ := findSlot_some hemp
            exact Or.inr ⟨i, pi, rfl, hpi, hppi, getq_set_self _ _ _ hlt⟩

/-- `room_remove_participant` either leaves the room slot untouched (not
found / bad index) or applies `room_remove_update` at the slot holding the
client. -/
theorem remove_result_room (rooms : List Room) (clients : List Client)
    (rIdx cIdx now : Nat) (room : Room) (hr : rooms[rIdx]? = some room) :
    (room_remove_participant rooms clients rIdx cIdx now).2.1[rIdx]? = some room ∨
    ∃ i pi, findSlot (fun p => p.client == some cIdx) room.participants = some i ∧
      room.participants[i]? = some pi ∧ (pi.client == some cIdx) = true ∧
      (room_remove_participant rooms clients rIdx cIdx now).2.1[rIdx]? =
        some (room_remove_update room cIdx i now) := by
  have hlt : rIdx < rooms.length := getq_lt hr
  unfold room_remove_participant
  rw [hr]
  cases hcl : clients[cIdx]? with
  | none => exact Or.inl hr
  | some client =>
    simp only []
    cases hfs : findSlot (fun p => p.client == some cIdx) room.participants with
    | none => exact Or.inl hr
    | some i =>
      obtain ⟨pi, hpi, hppi⟩ := findSlot_some hfs
      exact Or.inr ⟨i, pi, rfl, hpi, hppi, getq_set_self _ _ _ hlt⟩

/-- The participant count after `room_remove_update` is the uint8
decrement, in every branch. -/
theorem room_remove_update_count (room : Room) (cIdx i now : Nat) :
    (room_remove_update room cIdx i now).participantCount =
      u8dec room.participantCount := by
  simp only [room_remove_update]
  split
  · split <;> rfl
  · rfl

/-- Filling an empty slot preserves owner-presence. -/
theorem ownerPresentB_add_update (room : Room) (cIdx i now : Nat) (pi : Participant)
    (hpi : room.participants[i]? = some pi) (hppi : (pi.client == none) = true)
    (hpres : ownerPresentB room = true) :
    ownerPresentB (room_add_update room cIdx i now) = true := by
  have hpic : pi.client = none := by rwa [beq_iff_eq] at hppi
  cases how : room.owner with
  | none => simp [ownerPresentB, room_add_update, how]
  | some j =>
    rw [ownerPresentB, how] at hpres
    rw [Option.isSome_iff_exists] at hpres
    obtain ⟨k, hk⟩ := hpres
    obtain ⟨p, hpk, hppk⟩ := findSlot_some hk
    have hpjc : p.client = some j := by rwa [beq_iff_eq] at hppk
    have hik : i ≠ k := by
      intro heq
      rw [heq, hpk] at hpi
      obtain rfl := Option.some.inj hpi
      rw [hpic] at hpjc
      cases hpjc
    have hk' : ((room.participants.set i
        { client := some cIdx, joinTime := now,
          isOwner := room.owner == some cIdx })[k]?) = some p := by
      rw [getq_set_ne _ _ _ _ hik]
      exact hpk
    obtain ⟨t, ht⟩ := findSlot_isSome_of_getq (p := fun q => q.client == some j) hk' hppk
    have hown : (room_add_update room cIdx i now).owner = room.owner := rfl
    have hparts : (room_add_update room cIdx i now).participants =
        room.participants.set i
          { client := some cIdx, joinTime := now,
            isOwner := room.owner == some cIdx } := rfl
    unfold ownerPresentB
    rw [hown, how]
    simp only []
    rw [hparts, ht]
    rfl

/-- Clearing the slot of the departing client preserves owner-presence
whenever the removed client was not the owner, or the room stays
non-empty (count consistency and the 6-slot bound supply the transfer
target). -/
theorem ownerPresentB_remove_update (room : Room) (cIdx i now : Nat) (pi : Participant)
    (hpi : room.participants[i]? = some pi) (hppi : (pi.client == some cIdx) = true)
    (hlen : room.participants.length = MAX_PARTICIPANTS)
    (hcc : room.participantCount =
      countB (fun p => !(p.client == none)) room.participants)
    (hpres : ownerPresentB room = true)
    (hcond : room.owner = some cIdx → 1 < room.participantCount) :
    ownerPresentB (room_remove_update room cIdx i now) = true := by
  have hpic : pi.client = some cIdx := by rwa [beq_iff_eq] at hppi
  have hge1 : 0 < countB (fun p => !(p.client == none)) room.participants :=
    countB_pos_of_getq hpi (by simp [hpic])
  have hle6 : countB (fun p => !(p.client == none)) room.participants ≤
      MAX_PARTICIPANTS := hlen ▸ countB_le_length _ _
  have hcount1 : countB (fun p => !(p.client == none)) (partsCleared room i) + 1 =
      countB (fun p => !(p.client == none)) room.participants := by
    have h := countB_set (p := fun p : Participant => !(p.client == none))
      (clearedSlot room i) hpi
    simpa [hpic, clearedSlot, partsCleared] using h
  by_cases howc : room.owner = some cIdx
  · have hgt1 : 1 < room.participantCount := hcond howc
    have hdec : u8dec room.participantCount = room.participantCount - 1 := by
      simp only [u8dec, MAX_PARTICIPANTS] at *
      omega
    have hpos1 : 0 < countB (fun p => !(p.client == none)) (partsCleared room i) := by
      omega
    obtain ⟨t, ht⟩ := findSlot_isSome_of_countB_pos hpos1
    obtain ⟨pt, hpt, hppt⟩ := findSlot_some ht
    have hcondb : (room.owner == some cIdx &&
        decide (0 < u8dec room.participantCount)) = true := by
      simp [howc, hdec]
      omega
    obtain ⟨m, hm⟩ : ∃ m, pt.client = some m := by
      cases hec : pt.client with
      | none => rw [hec] at hppt; simp at hppt
      | some m => exact ⟨m, rfl⟩
    have hgetDt : (partsCleared room i).getD t default = pt := by
      rw [getq_getD, hpt]
      rfl
    have htlt : t < (partsCleared room i).length := getq_lt hpt
    have hsett := getq_set_self (partsCleared room i) t { pt with isOwner := true } htlt
    obtain ⟨u, hu⟩ := findSlot_isSome_of_getq hsett
      (p := fun p => p.client == some m) (by simp [hm])
    rw [hm] at hu
    have hval : room_remove_update room cIdx i now =
        { room with
          participants := (partsCleared room i).set t { pt with isOwner := true },
          participantCount := u8dec room.participantCount,
          lastActivity := now,
          owner := pt.client } := by
      simp only [room_remove_update]
      rw [if_pos hcondb, ht]
      simp only [hgetDt]
    rw [hval]
    unfold ownerPresentB
    simp only []
    rw [hm]
    simp only []
    rw [hu]
    rfl
  · have hcondbP : ¬ ((room.owner == some cIdx &&
        decide (0 < u8dec room.participantCount)) = true) := by
      simp [howc]
    have hval : room_remove_update room cIdx i now =
        { room with
          participants := partsCleared room i,
          participantCount := u8dec room.participantCount,
          lastActivity := now } := by
      simp only [room_remove_update]
      rw [if_neg hcondbP]
    cases how : room.owner with
    | none =>
      rw [hval]
      unfold ownerPresentB
      simp only []
      rw [how]
    | some j =>
      rw [ownerPresentB, how] at hpres
      rw [Option.isSome_iff_exists] at hpres
      obtain ⟨k, hk⟩ := hpres
      obtain ⟨p, hpk, hppk⟩ := findSlot_some hk
      have hpjc : p.client = some j := by rwa [beq_iff_eq] at hppk
      have hji : j ≠ cIdx := by
        intro heq
        rw [how, heq] at howc
        exact howc rfl
      have hik : i ≠ k := by
        intro heq
        rw [heq, hpk] at hpi
        obtain rfl := Option.some.inj hpi
        rw [hpic] at hpjc
        exact hji (Option.some.inj hpjc).symm
      have hk' : (partsCleared room i)[k]? = some p := by
        rw [partsCleared, getq_set_ne _ _ _ _ hik]
        exact hpk
      obtain ⟨t, ht⟩ := findSlot_isSome_of_getq (p := fun q => q.client == some j) hk' hppk
      rw [hval]
      unfold ownerPresentB
      simp only []
      rw [how]
      simp only []
      rw [ht]
      rfl

/-- A client without a current room makes `handle_leave_room` the
identity (shared by several handler proofs). -/
theorem leave_room_noop (s : ServerState) (cIdx now : Nat) (c : Client)
    (hc : s.clients.clients[cIdx]? = some c) (hr : c.room = none) :
    handle_leave_room s cIdx now = s := by
  simp [handle_leave_room, hc, hr]

/-! ### Claim theorems -/

/-- C9: for every client whose `current_room` is none, processing a
`leave-room` event is a no-op — the server state (registries, rooms,
counters) is unchanged and no message is emitted to anyone. -/
theorem C9_leave_room_noop (s : ServerState) (cIdx now : Nat) (c : Client)
    (hc : s.clients.clients[cIdx]? = some c) (hr : c.room = none) :
    handle_leave_room s cIdx now = s :=
  leave_room_noop s cIdx now c hc hr

/-- Witness for C9 at a concrete roomless client. -/
theorem C9_witness : handle_leave_room c9state 0 3 = c9state :=
  C9_leave_room_noop c9state 0 3 c9client (by decide) (by decide)

/-- C10: when `participant_count` agrees with the number of non-empty
slots, `room_add_participant` never reaches the "no empty slot" branch:
its result is never `-4` and lies in `{0, -1, -2, -3}`. -/
theorem C10_add_participant_no_neg4 (rooms : List Room) (clients : List Client)
    (rIdx cIdx now : Nat) (room : Room)
    (hr : rooms[rIdx]? = some room)
    (hlen : room.participants.length = MAX_PARTICIPANTS)
    (hcc : room.participantCount =
      countB (fun p => !(p.client == none)) room.participants) :
    (room_add_participant rooms clients rIdx cIdx now).1 ≠ -4 ∧
    ((room_add_participant rooms clients rIdx cIdx now).1 = 0 ∨
     (room_add_participant rooms clients rIdx cIdx now).1 = -1 ∨
     (room_add_participant rooms clients rIdx cIdx now).1 = -2 ∨
     (room_add_participant rooms clients rIdx cIdx now).1 = -3) := by
  unfold room_add_participant
  rw [hr]
  cases hcl : clients[cIdx]? with
  | none => simp
  | some client =>
    cases hful : room_is_full room with
    | true => simp [hful]
    | false =>
      cases hdup : (room_find_participant room clients client.id).isSome with
      | true => simp [hful, hdup]
      | false =>
        cases hoth : (match client.room with
          | some r => r ≠ rIdx
          | none => false : Bool) with
        | true =>
          simp only [ne_eq, decide_not] at hoth
          simp [hful, hdup, hoth]
        | false =>
          have hlt : room.participantCount < MAX_PARTICIPANTS := by
            simpa [room_is_full] using hful
          have hsum := countB_not_add (fun p : Participant => p.client == none)
            room.participants
          have hpos : 0 < countB (fun p : Participant => p.client == none)
              room.participants := by
            have hne := hcc
            simp only [Bool.not_eq_true'] at hne
            omega
          obtain ⟨j, hj⟩ := findSlot_isSome_of_countB_pos hpos
          simp only [ne_eq, decide_not] at hoth
          simp [hful, hdup, hoth, hj]

/-- Witness for C10 at a concrete consistent room. -/
theorem C10_witness :
    (room_add_participant [c10room] [c10client] 0 0 5).1 ≠ -4 ∧
    ((room_add_participant [c10room] [c10client] 0 0 5).1 = 0 ∨
     (room_add_participant [c10room] [c10client] 0 0 5).1 = -1 ∨
     (room_add_participant [c10room] [c10client] 0 0 5).1 = -2 ∨
     (room_add_participant [c10room] [c10client] 0 0 5).1 = -3) :=
  C10_add_participant_no_neg4 [c10room] [c10client] 0 0 5 c10room
    (by decide) (by decide) (by decide)

set_option maxRecDepth 100000 in
/-- C1 (code bug): a roomless client sending join-room with no roomId
causes a room to be created with it as owner — but because `room_init`
already added the creator as first participant, the second
`room_add_participant` in `handle_join_room` returns `-2` (duplicate), so
the server sends `room-created` followed by the bogus error
"Room is full (max 6 participants)" (the room holds 1 of 6 participants)
and never broadcasts the `participants` event, contradicting the claimed
successful join. -/
theorem C1_join_create_double_add :
    (handle_join_room c1state 0 none ⟨0, 0, 0, 0, 0, 0⟩ 7).sent =
      [{ target := 0, event := "room-created",
         data := some (jdumps false (.jobj
           [("roomId", .jstr (generate_uuid ⟨0, 0, 0, 0, 0, 0⟩)),
            ("roomName", .jstr "Unnamed Room")])) },
       { target := 0, event := "error",
         data := some "Room is full (max 6 participants)" }] ∧
    countB (fun m => m.event == "participants")
      (handle_join_room c1state 0 none ⟨0, 0, 0, 0, 0, 0⟩ 7).sent = 0 ∧
    ((handle_join_room c1state 0 none ⟨0, 0, 0, 0, 0, 0⟩ 7).rooms.rooms.getD 0
        default).participantCount = 1 := by
  decide

/-- C2 (code bug): the reaper removes a timed-out client with
`client_registry_remove` alone — no implicit `handle_leave_room` as on
socket close. After the reap cycle at time 100 (timeout 30 s) the client's
slot is freed (`is_alive = false`) yet the room's participant array still
references client 0, the client's own `room` back-pointer survives, and no
`participants` broadcast was sent to anyone. -/
theorem C2_timeout_leaves_room_reference :
    (server_reap c2state 100 30).sent = [] ∧
    ((server_reap c2state 100 30).clients.clients.getD 0 default).isAlive = false ∧
    ((server_reap c2state 100 30).clients.clients.getD 0 default).room = some 0 ∧
    (((server_reap c2state 100 30).rooms.rooms.getD 0 default).participants.getD 0
        default).client = some 0 ∧
    ((server_reap c2state 100 30).rooms.rooms.getD 0 default).participantCount = 1 := by
  decide

/-- The serialized form of a JSON object is a non-empty string. -/
theorem jdumps_obj_length_pos (b : Bool) (fs : List (String × JVal)) :
    0 < (jdumps b (.jobj fs)).length := by
  have h1 : ("\x7b" : String).length = 1 := by decide
  simp [jdumps, String.length_append, h1]

/-- Every serialized envelope is non-empty, hence `lws_write` (modelled as
returning the frame length) reports success. -/
theorem sentEnvelope_length_pos (b : Bool) (m : SentMsg) :
    0 < (jdumps b (sentEnvelope m)).length := by
  rw [sentEnvelope]
  exact jdumps_obj_length_pos _ _

set_option maxRecDepth 100000 in
/-- C3 counterexample: on accept the server does send exactly one
`client-id` envelope to the new client, but the envelope's `data` field is
a JSON STRING (the `json_dumps` text of `{clientId: id}` re-wrapped by
`json_string` in `client_send_message`), not the JSON object
`{clientId: id}` the claim states. -/
theorem C3_counterexample :
    ((lws_established c3state 9 ⟨0, 0, 0, 0, 0, 0⟩ 3).sent.map SentMsg.event =
      ["client-id"]) ∧
    ((jGet (sentEnvelope ((lws_established c3state 9 ⟨0, 0, 0, 0, 0, 0⟩ 3).sent.getD 0
        default)) "data").map JVal.isObj = some false) ∧
    ((jGet (sentEnvelope ((lws_established c3state 9 ⟨0, 0, 0, 0, 0, 0⟩ 3).sent.getD 0
        default)) "data").map JVal.isStr = some true) ∧
    ((jGet (sentEnvelope ((lws_established c3state 9 ⟨0, 0, 0, 0, 0, 0⟩ 3).sent.getD 0
        default)) "data").bind jAsString =
      some (jdumps false (.jobj
        [("clientId", .jstr (generate_uuid ⟨0, 0, 0, 0, 0, 0⟩))]))) := by
  decide

/-- C3 amended: when a free registry slot exists the server synchronously
sends exactly one `client-id` envelope to the accepted client, whose
`data` is the JSON string containing the serialization of
`{clientId: <the assigned 36-character id>}`; when the registry is full
the accept is refused and nothing at all happens. -/
theorem C3_client_id_amended (s : ServerState) (wsi : Nat) (e : Uuid6) (now : Nat) :
    (∀ i : Nat, findSlot (fun c => !c.isAlive) s.clients.clients = some i →
      (lws_established s wsi e now).sent =
        s.sent ++
          [{ target := i, event := "client-id",
             data := some (jdumps false (.jobj
               [("clientId", .jstr (generate_uuid e))])) }] ∧
      (generate_uuid e).length = 36 ∧
      ((lws_established s wsi e now).clients.clients[i]?).map Client.id =
        some (generate_uuid e)) ∧
    (findSlot (fun c => !c.isAlive) s.clients.clients = none →
      lws_established s wsi e now = s) := by
  constructor
  · intro i h
    obtain ⟨x, hx, hpx⟩ := findSlot_some h
    have hlt : i < s.clients.clients.length := getq_lt hx
    have hset : (s.clients.clients.set i (client_init wsi e now))[i]? =
        some (client_init wsi e now) := getq_set_self _ _ _ hlt
    refine ⟨?_, genUuid_length e, ?_⟩
    · simp only [lws_established, client_registry_add, h]
      simp only [ssSend, client_send_message, getq_getD, hset]
      simp [client_init, sentEnvelope_length_pos]
    · simp only [lws_established, client_registry_add, h]
      simp only [ssSend, client_send_message, getq_getD, hset]
      simp only [client_init, sentEnvelope_length_pos]
      simp [sentEnvelope_length_pos]
      rw [getq_set_self]
      · simp [client_init]
      · simpa using hlt
  · intro h
    simp [lws_established, client_registry_add, h]

/-- Witness for the amended C3 at a registry with one free slot. -/
theorem C3_witness :
    (lws_established c3state 9 ⟨0, 0, 0, 0, 0, 0⟩ 3).sent =
      c3state.sent ++
        [{ target := 0, event := "client-id",
           data := some (jdumps false (.jobj
             [("clientId", .jstr (generate_uuid ⟨0, 0, 0, 0, 0, 0⟩))])) }] ∧
    (generate_uuid ⟨0, 0, 0, 0, 0, 0⟩).length = 36 ∧
    ((lws_established c3state 9 ⟨0, 0, 0, 0, 0, 0⟩ 3).clients.clients[0]?).map
        Client.id = some (generate_uuid ⟨0, 0, 0, 0, 0, 0⟩) :=
  (C3_client_id_amended c3state 9 ⟨0, 0, 0, 0, 0, 0⟩ 3).1 0 (by decide)

/-- C4 counterexample: with the ingress queue full, the push does return a
failure and the queue is untouched, but the receive callback IGNORES the
push result, so the server's error counter is NOT incremented — refuting
the claim's "incremented by the caller" clause at this input. -/
theorem C4_counterexample :
    (message_queue_push c4state.msgQueue 5 c4msg 9).1 = -1 ∧
    (message_queue_push c4state.msgQueue 5 c4msg 9).2 = c4state.msgQueue ∧
    (lws_receive c4state 5 (some (.jobj [("event", .jstr "ping")])) 9 2).totalErrors =
      c4state.totalErrors ∧
    (lws_receive c4state 5 (some (.jobj [("event", .jstr "ping")])) 9 2).msgQueue =
      c4state.msgQueue ∧
    (lws_receive c4state 5 (some (.jobj [("event", .jstr "ping")])) 9 2).sent =
      c4state.sent :=
  ⟨by decide, rfl, by decide, rfl, by decide⟩

/-- C4 amended: a push onto a full ingress queue returns a failure and
leaves the queue unchanged, and the receive callback drops the frame —
but it ignores the push result, so the error counter, the queue and the
send log are all unchanged (only the client's last-activity is updated). -/
theorem C4_queue_full_amended :
    (∀ (q : MessageQueue) (wsi : Nat) (m : MessageT) (t : Nat),
      q.count ≥ q.capacity → message_queue_push q wsi m t = (-1, q)) ∧
    (∀ (s : ServerState) (wsi : Nat) (root : Option JVal) (nowMs now i : Nat)
      (m : MessageT),
      client_registry_find_by_wsi s.clients wsi = some i →
      message_deserialize root = some m →
      s.msgQueue.count ≥ s.msgQueue.capacity →
      (lws_receive s wsi root nowMs now).totalErrors = s.totalErrors ∧
      (lws_receive s wsi root nowMs now).msgQueue = s.msgQueue ∧
      (lws_receive s wsi root nowMs now).sent = s.sent) := by
  constructor
  · intro q wsi m t hq
    simp [message_queue_push, hq]
  · intro s wsi root nowMs now i m hfind hmsg hq
    simp [lws_receive, hfind, hmsg, message_queue_push, hq]

/-- Witness for the amended C4 at the concrete full queue. -/
theorem C4_witness :
    message_queue_push c4state.msgQueue 5 c4msg 9 = (-1, c4state.msgQueue) ∧
    ((lws_receive c4state 5 (some (.jobj [("event", .jstr "ping")])) 9 2).totalErrors =
        c4state.totalErrors ∧
      (lws_receive c4state 5 (some (.jobj [("event", .jstr "ping")])) 9 2).msgQueue =
        c4state.msgQueue ∧
      (lws_receive c4state 5 (some (.jobj [("event", .jstr "ping")])) 9 2).sent =
        c4state.sent) :=
  ⟨C4_queue_full_amended.1 c4state.msgQueue 5 c4msg 9 (by decide),
   C4_queue_full_amended.2 c4state 5 (some (.jobj [("event", .jstr "ping")])) 9 2 0
     { event := "ping", data := none } (by decide) rfl (by decide)⟩

/-- C5 counterexample: an in-room client sending an offer whose
`targetClientId` is the EMPTY STRING is answered with
error("Target client not found in room"), not the claimed
error("Missing target client ID"): the empty string is non-NULL, so it
passes the missing-target check and merely fails the participant lookup. -/
theorem C5_counterexample :
    (handle_offer_message c5state 0 (some (.jobj [("targetClientId", .jstr "")]))).sent =
      [{ target := 0, event := "error",
         data := some "Target client not found in room" }] ∧
    countB (fun m => m.data == some "Missing target client ID")
      (handle_offer_message c5state 0
        (some (.jobj [("targetClientId", .jstr "")]))).sent = 0 := by
  decide

/-- C5 amended: for an in-room sender of any of the three signaling
events, an ABSENT (or non-string) `targetClientId` is answered with
error("Missing target client ID") and the message is dropped, while an
EMPTY-STRING `targetClientId` passes that check and — since no participant
carries an empty id — is answered with
error("Target client not found in room"); either way nothing is
forwarded. -/
theorem C5_missing_target_amended (s : ServerState) (cIdx : Nat) (data : Option JVal)
    (ev key : String) (c : Client) (rIdx : Nat)
    (hc : s.clients.clients[cIdx]? = some c) (hr : c.room = some rIdx) :
    ((data.bind (fun d => jGet d "targetClientId")).bind jAsString = none →
      handleSignaling s cIdx data ev key =
        ssSend s cIdx "error" (some "Missing target client ID")) ∧
    ((data.bind (fun d => jGet d "targetClientId")).bind jAsString = some "" →
      ((s.rooms.rooms.getD rIdx default)).participants.all
        (fun p => match p.client with
          | some j => !((s.clients.clients.getD j default).id == "")
          | none => true) = true →
      handleSignaling s cIdx data ev key =
        ssSend s cIdx "error" (some "Target client not found in room")) := by
  constructor
  · intro h
    simp [handleSignaling, hc, hr, h]
  · intro h hids
    cases hroom : s.rooms.rooms[rIdx]? with
    | none => simp [handleSignaling, hc, hr, h, hroom]
    | some room =>
      have hget : s.rooms.rooms.getD rIdx default = room := by
        rw [getq_getD, hroom]
        rfl
      rw [hget] at hids
      have hfind : room_find_participant room s.clients.clients "" = none := by
        unfold room_find_participant
        cases hfs : findSlot
            (fun p => match p.client with
              | some j => (s.clients.clients.getD j default).id == ""
              | none => false)
            room.participants with
        | none => rfl
        | some i =>
          exfalso
          obtain ⟨p, hp, hpp⟩ := findSlot_some hfs
          have hmem : p ∈ room.participants := mem_iff_getq.mpr ⟨i, hp⟩
          have hall := List.all_eq_true.mp hids p hmem
          cases hpc : p.client with
          | none => rw [hpc] at hpp; simp at hpp
          | some j =>
            rw [hpc] at hpp hall
            simp at hpp hall
            exact hall hpp
      simp [handleSignaling, hc, hr, h, hroom, hfind]

/-- Witness for the amended C5: an absent target and an empty target in
the concrete two-member room. -/
theorem C5_witness :
    (handleSignaling c5state 0 none "offer" "offer" =
      ssSend c5state 0 "error" (some "Missing target client ID")) ∧
    (handleSignaling c5state 0 (some (.jobj [("targetClientId", .jstr "")]))
        "offer" "offer" =
      ssSend c5state 0 "error" (some "Target client not found in room")) :=
  ⟨(C5_missing_target_amended c5state 0 none "offer" "offer" c5clientA 0
      (by decide) (by decide)).1 rfl,
   (C5_missing_target_amended c5state 0 (some (.jobj [("targetClientId", .jstr "")]))
      "offer" "offer" c5clientA 0 (by decide) (by decide)).2 (by decide) (by decide)⟩

/-- C8: a join-room from a roomless live client targeting an existing room
that already holds 6 participants is answered with
error("Room is full (max 6 participants)"); the room registry is unchanged
(participant array, count and owner included) and the one error frame is
the only message sent — no `participants` broadcast reaches the members. -/
theorem C8_room_full_join (s : ServerState) (cIdx rIdx : Nat) (data : Option JVal)
    (e : Uuid6) (now : Nat) (c : Client) (room : Room) (rid : String)
    (hc : s.clients.clients[cIdx]? = some c)
    (halive : c.isAlive = true)
    (hnoroom : c.room = none)
    (hrid : data.bind (fun d => (jGet d "roomId").bind jAsString) = some rid)
    (hfound : room_registry_find_by_id s.rooms.rooms rid = some rIdx)
    (hroom : s.rooms.rooms[rIdx]? = some room)
    (hfull : room.participantCount = 6) :
    (handle_join_room s cIdx data e now).rooms.rooms = s.rooms.rooms ∧
    (handle_join_room s cIdx data e now).sent =
      s.sent ++
        [{ target := cIdx, event := "error",
           data := some "Room is full (max 6 participants)" }] := by
  have hleave : handle_leave_room s cIdx now = s := leave_room_noop s cIdx now c hc hnoroom
  have hful : room_is_full room = true := by
    simp [room_is_full, hfull, MAX_PARTICIPANTS]
  constructor
  · simp [handle_join_room, hleave, hrid, hfound, joinRoomPhase, room_add_participant,
      hroom, hc, hful, ssSend, client_send_message, halive]
  · simp [handle_join_room, hleave, hrid, hfound, joinRoomPhase, room_add_participant,
      hroom, hc, hful, ssSend, client_send_message, halive]

/-- Witness for C8: the seventh join against the concrete full room. -/
theorem C8_witness :
    (handle_join_room c8state 0 (some (.jobj [("roomId", .jstr "R")]))
        ⟨0, 0, 0, 0, 0, 0⟩ 4).rooms.rooms = c8state.rooms.rooms ∧
    (handle_join_room c8state 0 (some (.jobj [("roomId", .jstr "R")]))
        ⟨0, 0, 0, 0, 0, 0⟩ 4).sent =
      c8state.sent ++
        [{ target := 0, event := "error",
           data := some "Room is full (max 6 participants)" }] :=
  C8_room_full_join c8state 0 0 (some (.jobj [("roomId", .jstr "R")]))
    ⟨0, 0, 0, 0, 0, 0⟩ 4 c8joiner c8room "R" (by decide) (by decide) (by decide)
    (by decide) (by decide) (by decide) (by decide)

/-- C6 counterexample: removing the sole participant (the owner) leaves
`owner` still set to the departed client while no slot references it any
more — the owner-presence invariant is violated right after
`room_remove_participant`. -/
theorem C6_counterexample :
    ((room_remove_participant [c6room] [c6client] 0 0 9).2.1.getD 0 default).owner =
      some 0 ∧
    ownerPresentB ((room_remove_participant [c6room] [c6client] 0 0 9).2.1.getD 0
      default) = false := by
  decide

/-- C6 amended: the owner-presence invariant is preserved by
`room_add_participant` and (trivially) re-established by `room_cleanup`,
and it is preserved by `room_remove_participant` in every case EXCEPT the
one the counterexample exhibits: when the removed client is the owner and
the room becomes empty, the `owner` field keeps the stale reference until
`room_cleanup` resets it. -/
theorem C6_owner_invariant_amended :
    (∀ (rooms : List Room) (clients : List Client) (rIdx cIdx now : Nat)
      (room room' : Room),
      rooms[rIdx]? = some room → ownerPresentB room = true →
      (room_add_participant rooms clients rIdx cIdx now).2.1[rIdx]? = some room' →
      ownerPresentB room' = true) ∧
    (∀ (rooms : List Room) (clients : List Client) (rIdx : Nat) (room' : Room),
      (room_cleanup rooms clients rIdx).1[rIdx]? = some room' →
      ownerPresentB room' = true) ∧
    (∀ (rooms : List Room) (clients : List Client) (rIdx cIdx now : Nat)
      (room room' : Room),
      rooms[rIdx]? = some room →
      room.participants.length = MAX_PARTICIPANTS →
      room.participantCount = countB (fun p => !(p.client == none)) room.participants →
      ownerPresentB room = true →
      (room.owner = some cIdx → 1 < room.participantCount) →
      (room_remove_participant rooms clients rIdx cIdx now).2.1[rIdx]? = some room' →
      ownerPresentB room' = true) := by
  refine ⟨?_, ?_, ?_⟩
  · intro rooms clients rIdx cIdx now room room' hr hpres hres
    rcases add_result_room rooms clients rIdx cIdx now room hr with
      h | ⟨i, pi, _, hpi, hppi, h⟩
    · rw [h] at hres
      obtain rfl := Option.some.inj hres
      exact hpres
    · rw [h] at hres
      obtain rfl := Option.some.inj hres
      exact ownerPresentB_add_update room cIdx i now pi hpi hppi hpres
  · intro rooms clients rIdx room' hres
    unfold room_cleanup at hres
    cases hr : rooms[rIdx]? with
    | none =>
      rw [hr] at hres
      simp only at hres
      rw [hr] at hres
      cases hres
    | some room =>
      rw [hr] at hres
      simp only at hres
      rw [getq_set_self _ _ _ (getq_lt hr)] at hres
      obtain rfl := Option.some.inj hres
      simp [ownerPresentB]
  · intro rooms clients rIdx cIdx now room room' hr hlen hcc hpres hcond hres
    rcases remove_result_room rooms clients rIdx cIdx now room hr with
      h | ⟨i, pi, _, hpi, hppi, h⟩
    · rw [h] at hres
      obtain rfl := Option.some.inj hres
      exact hpres
    · rw [h] at hres
      obtain rfl := Option.some.inj hres
      exact ownerPresentB_remove_update room cIdx i now pi hpi hppi hlen hcc hpres hcond

/-- Witness for the amended C6: the owner leaves a two-member room; the
invariant survives because ownership is transferred. -/
theorem C6_witness :
    ownerPresentB (room_remove_update c6roomW 0 0 9) = true :=
  C6_owner_invariant_amended.2.2 [c6roomW] [c6clientW0, c6clientW1] 0 0 9 c6roomW
    (room_remove_update c6roomW 0 0 9) (by decide) (by decide) (by decide)
    (by decide) (fun _ => by decide) (by decide)

/-- C7: removing a participant that occupies slot `i` succeeds (result 0),
clears that slot, decrements the count by one, resets the client's
back-reference and state to CONNECTED — unconditionally, for every
removed participant; and when the removed client was the owner of a room
that stays non-empty, the lowest-index remaining participant (the first
non-empty slot of the cleared array) becomes the new owner and exactly
one participant carries `is_owner = true` afterwards. The last conjunct
additionally assumes (as the code guarantees for reachable rooms) that
before the removal the is_owner flags mark only the departing owner's
slot and no other slot references that client. -/
theorem C7_remove_participant_spec (rooms : List Room) (clients : List Client)
    (rIdx cIdx i now : Nat) (room : Room) (c : Client)
    (hr : rooms[rIdx]? = some room)
    (hc : clients[cIdx]? = some c)
    (hfind : findSlot (fun p => p.client == some cIdx) room.participants = some i)
    (hlen : room.participants.length = MAX_PARTICIPANTS)
    (hcc : room.participantCount =
      countB (fun p => !(p.client == none)) room.participants) :
    (room_remove_participant rooms clients rIdx cIdx now).1 = 0 ∧
    (room_remove_participant rooms clients rIdx cIdx now).2.2[cIdx]? =
      some { c with room := none, state := ClientState.connected } ∧
    (room_remove_participant rooms clients rIdx cIdx now).2.1[rIdx]? =
      some (room_remove_update room cIdx i now) ∧
    (room_remove_update room cIdx i now).participantCount =
      room.participantCount - 1 ∧
    ((room_remove_update room cIdx i now).participants[i]?).map
      Participant.client = some none ∧
    (room.owner = some cIdx → 1 < room.participantCount →
      (∀ k, k < room.participants.length →
        (room.participants.getD k default).isOwner = true →
        (room.participants.getD k default).client = some cIdx) →
      (∀ k, k < room.participants.length → k ≠ i →
        (room.participants.getD k default).client ≠ some cIdx) →
      ∃ t p, findSlot (fun p => !(p.client == none)) (partsCleared room i) = some t ∧
        (room_remove_update room cIdx i now).participants[t]? = some p ∧
        (room_remove_update room cIdx i now).owner = p.client ∧
        p.isOwner = true ∧
        countB (fun p => p.isOwner) (room_remove_update room cIdx i now).participants
          = 1) := by
  obtain ⟨pi, hpi, hppi⟩ := findSlot_some hfind
  have hpic : pi.client = some cIdx := by rwa [beq_iff_eq] at hppi
  have hilt : i < room.participants.length := getq_lt hpi
  have hclt : cIdx < clients.length := getq_lt hc
  have hrlt : rIdx < rooms.length := getq_lt hr
  have hge1 : 0 < countB (fun p => !(p.client == none)) room.participants :=
    countB_pos_of_getq hpi (by simp [hpic])
  have hle6 : countB (fun p => !(p.client == none)) room.participants ≤
      MAX_PARTICIPANTS := hlen ▸ countB_le_length _ _
  have hcount1 : countB (fun p => !(p.client == none)) (partsCleared room i) + 1 =
      countB (fun p => !(p.client == none)) room.participants := by
    have h := countB_set (p := fun p : Participant => !(p.client == none))
      (clearedSlot room i) hpi
    simpa [hpic, clearedSlot, partsCleared] using h
  have hbase : (partsCleared room i)[i]? = some (clearedSlot room i) := by
    rw [partsCleared]
    exact getq_set_self _ _ _ hilt
  have hres : room_remove_participant rooms clients rIdx cIdx now =
      (0, rooms.set rIdx (room_remove_update room cIdx i now),
       clients.set cIdx { c with room := none, state := ClientState.connected }) := by
    unfold room_remove_participant
    rw [hr, hc]
    simp only []
    rw [hfind]
  have hslot : ((room_remove_update room cIdx i now).participants[i]?) =
      some (clearedSlot room i) := by
    simp only [room_remove_update]
    split
    · split
      next t htf =>
        obtain ⟨pt, hpt, hppt⟩ := findSlot_some htf
        have hti : t ≠ i := by
          intro heq
          rw [heq, hbase] at hpt
          obtain rfl := Option.some.inj hpt
          simp [clearedSlot] at hppt
        simp only []
        rw [getq_set_ne _ _ _ _ hti]
        exact hbase
      next htf => exact hbase
    · exact hbase
  refine ⟨by rw [hres], ?_, ?_, ?_, ?_, ?_⟩
  · rw [hres]
    exact getq_set_self _ _ _ hclt
  · rw [hres]
    exact getq_set_self _ _ _ hrlt
  · rw [room_remove_update_count]
    simp only [u8dec, MAX_PARTICIPANTS] at *
    omega
  · rw [hslot]
    rfl
  · intro howc hgt1 hflag hdis
    have hdec : u8dec room.participantCount = room.participantCount - 1 := by
      simp only [u8dec, MAX_PARTICIPANTS] at *
      omega
    have hpos1 : 0 < countB (fun p => !(p.client == none)) (partsCleared room i) := by
      omega
    obtain ⟨t, ht⟩ := findSlot_isSome_of_countB_pos hpos1
    obtain ⟨pt, hpt, hppt⟩ := findSlot_some ht
    have hcondb : (room.owner == some cIdx &&
        decide (0 < u8dec room.participantCount)) = true := by
      simp [howc, hdec]
      omega
    have hgetDt : (partsCleared room i).getD t default = pt := by
      rw [getq_getD, hpt]
      rfl
    have htlt : t < (partsCleared room i).length := getq_lt hpt
    have hval : room_remove_update room cIdx i now =
        { room with
          participants := (partsCleared room i).set t { pt with isOwner := true },
          participantCount := u8dec room.participantCount,
          lastActivity := now,
          owner := pt.client } := by
      simp only [room_remove_update]
      rw [if_pos hcondb, ht]
      simp only [hgetDt]
    have hflags0 : ∀ (k : Nat) (q : Participant),
        (partsCleared room i)[k]? = some q → q.isOwner = false := by
      intro k q hk
      by_cases hki : k = i
      · rw [hki, hbase] at hk
        obtain rfl := Option.some.inj hk
        rfl
      · rw [partsCleared, getq_set_ne _ _ _ _ (fun h => hki h.symm)] at hk
        have hklt : k < room.participants.length := getq_lt hk
        have hgd : room.participants.getD k default = q := by
          rw [getq_getD, hk]
          rfl
        cases hqo : q.isOwner with
        | false => rfl
        | true =>
          have h1 := hflag k hklt
          have h2 := hdis k hklt hki
          rw [hgd] at h1 h2
          exact absurd (h1 hqo) h2
    have hcount0 : countB (fun p => p.isOwner) (partsCleared room i) = 0 := by
      rw [countB_eq_zero_iff]
      intro x hx
      obtain ⟨k, hk⟩ := mem_iff_getq.mp hx
      exact hflags0 k x hk
    have hcountset := countB_set (p := fun p : Participant => p.isOwner)
      { pt with isOwner := true } hpt
    simp only [hcount0, hflags0 t pt hpt] at hcountset
    refine ⟨t, { pt with isOwner := true }, ht, ?_, ?_, rfl, ?_⟩
    · rw [hval]
      exact getq_set_self _ _ _ htlt
    · rw [hval]
    · rw [hval]
      simp only []
      simpa using hcountset

/-- Witness for C7: the flagged owner of the concrete two-member room
leaves; the removal succeeds, the slot is cleared, and ownership passes to
the remaining member as the unique flagged participant. -/
theorem C7_witness :
    (room_remove_participant [c7room] [c7clientA, c7clientB] 0 0 9).1 = 0 ∧
    (room_remove_participant [c7room] [c7clientA, c7clientB] 0 0 9).2.2[0]? =
      some { c7clientA with room := none, state := ClientState.connected } ∧
    (room_remove_participant [c7room] [c7clientA, c7clientB] 0 0 9).2.1[0]? =
      some (room_remove_update c7room 0 0 9) ∧
    (room_remove_update c7room 0 0 9).participantCount =
      c7room.participantCount - 1 ∧
    ((room_remove_update c7room 0 0 9).participants[0]?).map
      Participant.client = some none ∧
    (c7room.owner = some 0 → 1 < c7room.participantCount →
      (∀ k, k < c7room.participants.length →
        (c7room.participants.getD k default).isOwner = true →
        (c7room.participants.getD k default).client = some 0) →
      (∀ k, k < c7room.participants.length → k ≠ 0 →
        (c7room.participants.getD k default).client ≠ some 0) →
      ∃ t p, findSlot (fun p => !(p.client == none)) (partsCleared c7room 0) = some t ∧
        (room_remove_update c7room 0 0 9).participants[t]? = some p ∧
        (room_remove_update c7room 0 0 9).owner = p.client ∧
        p.isOwner = true ∧
        countB (fun p => p.isOwner) (room_remove_update c7room 0 0 9).participants
          = 1) :=
  C7_remove_participant_spec [c7room] [c7clientA, c7clientB] 0 0 0 9 c7room c7clientA
    (by decide) (by decide) (by decide) (by decide) (by decide)

end RedRTC
